import Mathlib

/-!
# Verification of the tradebot signal-to-order pipeline

Shallow embedding of the pipeline's core stages, translated from the
repository sources:

* `src/common/models/tv_command.py` — the canonical command enum;
* `src/services/order_gateway/src/exchanges/symbol_utils.py` — symbol
  translation;
* `src/services/order_gateway/src/exchanges/bingx_client.py` — request
  signing (HMAC-SHA256 over the sorted, URL-encoded query) and the
  response classification;
* `src/services/tv_listener/src/main.py` — payload normalization;
* `src/common/utils/config.py` — account registry and routing profiles;
* `src/services/order_gateway/src/main.py` — command-to-action routing
  and the order endpoint;
* `src/services/signal_orchestrator/src/main.py` — the per-account
  fan-out.

Machine integers are modelled as `Nat` with explicit `% 2 ^ 32` where
32-bit overflow matters (the SHA-256 compression); Python `None` becomes
`Option`; raised exceptions become `Except` or explicit result
constructors.
-/

namespace Tradebot

/-! ## Canonical commands (`src/common/models/tv_command.py`) -/

/-- Embeds `TvCommand` — the closed set of TradingView commands. -/
inductive TvCommand where
  | ENTER_LONG
  | ENTER_SHORT
  | EXIT_LONG
  | EXIT_SHORT
  | EXIT_LONG_ALL
  | EXIT_SHORT_ALL
  | EXIT_LONG_PARTIAL
  | EXIT_SHORT_PARTIAL
  | CANCEL_ALL
  deriving DecidableEq, Repr

/-- The string value of each command (the Python enum value). -/
def TvCommand.value : TvCommand → String
  | .ENTER_LONG => "ENTER_LONG"
  | .ENTER_SHORT => "ENTER_SHORT"
  | .EXIT_LONG => "EXIT_LONG"
  | .EXIT_SHORT => "EXIT_SHORT"
  | .EXIT_LONG_ALL => "EXIT_LONG_ALL"
  | .EXIT_SHORT_ALL => "EXIT_SHORT_ALL"
  | .EXIT_LONG_PARTIAL => "EXIT_LONG_PARTIAL"
  | .EXIT_SHORT_PARTIAL => "EXIT_SHORT_PARTIAL"
  | .CANCEL_ALL => "CANCEL_ALL"

/-- Embeds `TvCommand(s)` — parse a string into the enum, `none` when the Python
constructor would raise `ValueError`. -/
def TvCommand.ofString? (s : String) : Option TvCommand :=
  if s = "ENTER_LONG" then some .ENTER_LONG
  else if s = "ENTER_SHORT" then some .ENTER_SHORT
  else if s = "EXIT_LONG" then some .EXIT_LONG
  else if s = "EXIT_SHORT" then some .EXIT_SHORT
  else if s = "EXIT_LONG_ALL" then some .EXIT_LONG_ALL
  else if s = "EXIT_SHORT_ALL" then some .EXIT_SHORT_ALL
  else if s = "EXIT_LONG_PARTIAL" then some .EXIT_LONG_PARTIAL
  else if s = "EXIT_SHORT_PARTIAL" then some .EXIT_SHORT_PARTIAL
  else if s = "CANCEL_ALL" then some .CANCEL_ALL
  else none

/-- Embeds `Side` — the `Literal["long", "short"]` type of
`src/common/models/normalized_signal.py`. -/
inductive Side where
  | long
  | short
  deriving DecidableEq, Repr

/-- The string carried on the wire for a logical side. -/
def Side.str : Side → String
  | .long => "long"
  | .short => "short"

/-! ## Character-level string primitives

The Lean core `String` functions are implemented on byte positions and
do not reduce inside the kernel, so the Python string operations are
embedded directly on the character list `s.data` (Python strings index
by character as well). -/

/-- Python `s.endswith(suffix)`. -/
def strEndsWith (s suffix : String) : Bool := decide (List.IsSuffix suffix.data s.data)

/-- Python `s.startswith(p)`. -/
def strStartsWith (s p : String) : Bool := decide (List.IsPrefix p.data s.data)

/-- Python `s[:-n]` for `0 < n ≤ len(s)`. -/
def strDropRight (s : String) (n : Nat) : String :=
  String.mk (s.data.take (s.data.length - n))

/-- Python `len(s)`. -/
def strLength (s : String) : Nat := s.data.length

/-! ## Symbol translation
(`src/services/order_gateway/src/exchanges/symbol_utils.py`) -/

/-- Python `"-" in s`. -/
def hasHyphen (s : String) : Bool := s.data.contains '-'

/-- Embeds `to_bingx_symbol`: insert a hyphen before a known quote asset
(`USDT`, `USDC`, tried in that order) unless the symbol already contains
one; unrecognized symbols pass through unchanged. -/
def to_bingx_symbol (s : String) : String :=
  if hasHyphen s then s
  else if strEndsWith s "USDT" && decide (strLength s > 4) then
    strDropRight s 4 ++ "-USDT"
  else if strEndsWith s "USDC" && decide (strLength s > 4) then
    strDropRight s 4 ++ "-USDC"
  else s

theorem hasHyphen_append_hyphenated (a b : String) (hb : hasHyphen b = true) :
    hasHyphen (a ++ b) = true := by
  have hdata : (a ++ b).data = a.data ++ b.data := rfl
  simp only [hasHyphen, hdata] at *
  simp at hb ⊢
  exact Or.inr hb

theorem to_bingx_symbol_idem (s : String) :
    to_bingx_symbol (to_bingx_symbol s) = to_bingx_symbol s := by
  by_cases h1 : hasHyphen s = true
  · simp [to_bingx_symbol, h1]
  · by_cases h2 : (strEndsWith s "USDT" && decide (strLength s > 4)) = true
    · have hres : to_bingx_symbol s = strDropRight s 4 ++ "-USDT" := by
        simp [to_bingx_symbol, h1, h2]
      have hh : hasHyphen (strDropRight s 4 ++ "-USDT") = true :=
        hasHyphen_append_hyphenated _ _ (by decide)
      rw [hres]
      simp [to_bingx_symbol, hh]
    · by_cases h3 : (strEndsWith s "USDC" && decide (strLength s > 4)) = true
      · have hres : to_bingx_symbol s = strDropRight s 4 ++ "-USDC" := by
          simp [to_bingx_symbol, h1, h2, h3]
        have hh : hasHyphen (strDropRight s 4 ++ "-USDC") = true :=
          hasHyphen_append_hyphenated _ _ (by decide)
        rw [hres]
        simp [to_bingx_symbol, hh]
      · have hres : to_bingx_symbol s = s := by
          simp [to_bingx_symbol, h1, h2, h3]
        rw [hres, hres]

/-! ## Python string and truthiness helpers -/

/-- Python `s.strip()` (whitespace at both ends). -/
def pyStrip (s : String) : String :=
  String.mk (((s.data.dropWhile Char.isWhitespace).reverse.dropWhile Char.isWhitespace).reverse)

/-- Python `s.upper()` (ASCII inputs). -/
def pyUpper (s : String) : String := String.mk (s.data.map Char.toUpper)

/-- Python `s.lower()` (ASCII inputs). -/
def pyLower (s : String) : String := String.mk (s.data.map Char.toLower)

/-- Equality on `Except` results is decidable componentwise. -/
instance {e a : Type} [DecidableEq e] [DecidableEq a] : DecidableEq (Except e a) := fun x y =>
  match x, y with
  | .ok u, .ok v =>
      if h : u = v then .isTrue (by rw [h]) else .isFalse (by intro hh; cases hh; exact h rfl)
  | .error u, .error v =>
      if h : u = v then .isTrue (by rw [h]) else .isFalse (by intro hh; cases hh; exact h rfl)
  | .ok _, .error _ => .isFalse (by intro hh; cases hh)
  | .error _, .ok _ => .isFalse (by intro hh; cases hh)

/-- Python truthiness of an optional string: `None` and `""` are falsy. -/
def pyTruthyS : Option String → Bool
  | none => false
  | some s => s ≠ ""

/-- Python `a or dflt` for an optional string `a`. -/
def pyOrStr (a : Option String) (dflt : String) : String :=
  if pyTruthyS a then a.getD "" else dflt

/-- Python `needle in hay` on strings. -/
def strIn (needle hay : String) : Bool := decide (List.IsInfix needle.data hay.data)

/-! ## Payload and signal records
(`src/services/tv_listener/src/main.py`, `src/common/models/normalized_signal.py`) -/

/-- Embeds `TakeProfitLevel` — price and size percentage. -/
structure TakeProfitLevel where
  price : ℚ
  size_pct : ℚ
  deriving DecidableEq, Repr

/-- Embeds `TradingViewWebhookPayload` after pydantic validation: a field omitted
from the JSON takes the declared default (`command := some "ENTER"`,
`order_type := some "market"`); an explicit JSON `null` is `none`.
Floats are modelled as `ℚ` (they are only carried and compared, never
rounded). -/
structure TradingViewWebhookPayload where
  command : Option String := some "ENTER"
  symbol : String
  side : Option String := none
  order_type : Option String := some "market"
  entry_type : Option String := none
  code : Option String := none
  entry_price : Option ℚ := none
  quantity : Option ℚ := none
  margin_type : Option String := none
  leverage : Option ℚ := none
  tp_close_pct : Option ℚ := none
  routing_profile : Option String := none
  strategy_name : Option String := none
  timestamp : Option Int := none
  stop_loss : Option ℚ := none
  take_profits : Option (List TakeProfitLevel) := none
  deriving DecidableEq, Repr

/-- Embeds `TradingViewWebhookPayload.get_order_type`: prefer `order_type`, fall
back to `entry_type`, then to `"market"` (Python `or` chain, so an empty
string also falls through), lowercased. -/
def get_order_type (p : TradingViewWebhookPayload) : String :=
  pyLower (pyOrStr p.order_type (pyOrStr p.entry_type "market"))

/-- Embeds `NormalizedSignal` restricted to the fields the pipeline core reads
(`source`, `strategy_name`, `timestamp` and `raw_payload` are carried
verbatim and never branched on). -/
structure NormalizedSignal where
  command : TvCommand
  symbol : String
  side : Option Side
  entry_type : String
  entry_price : Option ℚ
  quantity : Option ℚ
  leverage : Option ℚ
  margin_type : Option String
  tp_close_pct : Option ℚ
  stop_loss : Option ℚ
  take_profits : List TakeProfitLevel
  routing_profile : Option String
  deriving DecidableEq, Repr

/-! ## Command normalization (`src/services/tv_listener/src/main.py`) -/

/-- Embeds `normalize_symbol`: strip, drop an `EXCHANGE:` prefix up to the first
colon, drop a trailing `.P` / `.p` suffix. -/
def normalize_symbol (symbol : String) : String :=
  let s := pyStrip symbol
  let s := if s.data.contains ':' then String.mk (s.data.dropWhile (· ≠ ':')).tail else s
  if strEndsWith s ".P" || strEndsWith s ".p" then strDropRight s 2 else s

/-- Embeds `_map_command_to_side`: the side implied by a command, when any. -/
def map_command_to_side : TvCommand → Option Side
  | .ENTER_LONG | .EXIT_LONG | .EXIT_LONG_ALL | .EXIT_LONG_PARTIAL => some .long
  | .ENTER_SHORT | .EXIT_SHORT | .EXIT_SHORT_ALL | .EXIT_SHORT_PARTIAL => some .short
  | .CANCEL_ALL => none

/-- The side-field validation inside `normalize_tradingview_payload`
(`buy`/`long` → long, `sell`/`short` → short, other non-empty → error). -/
def parseSideField (p : TradingViewWebhookPayload) : Except String (Option Side) :=
  if pyTruthyS p.side then
    let side_raw := pyStrip (pyLower (p.side.getD ""))
    if side_raw = "buy" || side_raw = "long" then .ok (some .long)
    else if side_raw = "sell" || side_raw = "short" then .ok (some .short)
    else .error ("Invalid side value: " ++ p.side.getD "")
  else .ok none

/-- Embeds `normalize_tradingview_payload`: returns `(command_str, side_norm)`.
A command field that already parses as a canonical command returns early
with the side implied by the command string; otherwise the `code` text,
then the `side` field, decide intent and direction. -/
def normalize_tradingview_payload (p : TradingViewWebhookPayload) :
    Except String (String × Option Side) :=
  let command_str := pyUpper (pyStrip (pyOrStr p.command "ENTER"))
  match TvCommand.ofString? command_str with
  | some _ =>
      let side_norm : Option Side :=
        if strStartsWith command_str "ENTER_LONG" || strStartsWith command_str "EXIT_LONG" then
          some .long
        else if strStartsWith command_str "ENTER_SHORT" || strStartsWith command_str "EXIT_SHORT" then
          some .short
        else none
      .ok (command_str, side_norm)
  | none => do
      let side_norm ← parseSideField p
      let code_raw := pyStrip (pyLower (pyOrStr p.code ""))
      let intentDir : String × Option Side :=
        if strIn "short exit" code_raw then ("EXIT", some .short)
        else if strIn "long exit" code_raw then ("EXIT", some .long)
        else if strIn "short entry" code_raw then ("ENTER", some .short)
        else if strIn "long entry" code_raw then ("ENTER", some .long)
        else match side_norm with
          | some sd => ("ENTER", some sd)
          | none => ("ENTER", none)
      match intentDir with
      | ("ENTER", some .long) => .ok ("ENTER_LONG", side_norm)
      | ("ENTER", some .short) => .ok ("ENTER_SHORT", side_norm)
      | ("EXIT", some .long) => .ok ("EXIT_LONG", side_norm)
      | ("EXIT", some .short) => .ok ("EXIT_SHORT", side_norm)
      | _ =>
          match side_norm with
          | some .long => .ok ("ENTER_LONG", side_norm)
          | some .short => .ok ("ENTER_SHORT", side_norm)
          | none =>
              if command_str ≠ "ENTER" && command_str ≠ "" then
                .error ("Unsupported command: " ++ command_str)
              else
                .error "Cannot determine command: missing both code and side fields"

/-- Embeds `map_tradingview_payload_to_normalized_signal`: normalize the command,
re-parse it as the enum, override the side with the command-implied one,
resolve the order type and validate limit orders, normalize the symbol. -/
def map_tradingview_payload_to_normalized_signal (p : TradingViewWebhookPayload) :
    Except String NormalizedSignal := do
  let pair ← normalize_tradingview_payload p
  let command ← match TvCommand.ofString? pair.1 with
    | some c => Except.ok c
    | none => Except.error ("Unsupported command: " ++ pair.1)
  let normalized_side := match map_command_to_side command with
    | some sd => some sd
    | none => pair.2
  let normalized_entry_type := get_order_type p
  if normalized_entry_type ≠ "market" && normalized_entry_type ≠ "limit" then
    Except.error ("Invalid order_type: " ++ normalized_entry_type)
  else if normalized_entry_type = "limit" && p.entry_price = none then
    Except.error "entry_price required for limit orders"
  else
    Except.ok
      { command := command
        symbol := normalize_symbol p.symbol
        side := normalized_side
        entry_type := normalized_entry_type
        entry_price := p.entry_price
        quantity := p.quantity
        leverage := p.leverage
        margin_type := p.margin_type
        tp_close_pct := p.tp_close_pct
        stop_loss := p.stop_loss
        take_profits := p.take_profits.getD []
        routing_profile := some (pyOrStr p.routing_profile "default") }

/-! ## Account registry and routing profiles (`src/common/utils/config.py`) -/

/-- The process environment: `os.getenv`, `none` when the variable is unset. -/
abbrev Env := String → Option String

/-- Embeds `AccountConfig` — a trading account record. -/
structure AccountConfig where
  account_id : String
  exchange : String
  mode : String := "dry"
  api_key_env : Option String := none
  secret_key_env : Option String := none
  source_key_env : Option String := none
  supports_reduce_only : Bool := true
  env_pairs : Option (List (String × String)) := none
  deriving DecidableEq, Repr

/-- The `env_pairs` loop of `AccountConfig.get_credentials`: first pair
whose two variables are both set and non-empty wins. -/
def credPairsLoop (env : Env) : List (String × String) → Option String × Option String
  | [] => (none, none)
  | (ke, se) :: rest =>
      let k := env ke
      let s := env se
      if pyTruthyS k && pyTruthyS s then (k, s) else credPairsLoop env rest

/-- Embeds `AccountConfig.get_credentials`: a truthy (non-`None`, non-empty)
`env_pairs` list takes precedence; otherwise the single
`api_key_env`/`secret_key_env` pair is read without a non-empty check. -/
def get_credentials (env : Env) (a : AccountConfig) : Option String × Option String :=
  match a.env_pairs with
  | some (p :: ps) => credPairsLoop env (p :: ps)
  | _ =>
      if pyTruthyS a.api_key_env && pyTruthyS a.secret_key_env then
        (env (a.api_key_env.getD ""), env (a.secret_key_env.getD ""))
      else (none, none)

/-- The `_accounts` registry entry `bingx_primary`. -/
def bingx_primary : AccountConfig :=
  { account_id := "bingx_primary"
    exchange := "bingx"
    mode := "test"
    env_pairs := some [("BINGX_3_API_KEY", "BINGX_3_API_SECRET"),
                       ("BINGX_API_KEY", "BINGX_API_SECRET")] }

/-- The `_accounts` registry entry `bingx_1`. -/
def bingx_1 : AccountConfig :=
  { account_id := "bingx_1"
    exchange := "bingx"
    mode := "demo"
    api_key_env := some "BINGX_1_API_KEY"
    secret_key_env := some "BINGX_1_API_SECRET"
    supports_reduce_only := false }

/-- The `_accounts` registry entry `bingx_2`. -/
def bingx_2 : AccountConfig :=
  { account_id := "bingx_2"
    exchange := "bingx"
    mode := "demo"
    api_key_env := some "BINGX_2_API_KEY"
    secret_key_env := some "BINGX_2_API_SECRET"
    supports_reduce_only := false }

/-- The `_accounts` dictionary. -/
def accountsRegistry : List (String × AccountConfig) :=
  [("bingx_primary", bingx_primary), ("bingx_1", bingx_1), ("bingx_2", bingx_2)]

/-- Embeds `_is_account_available`: registered and both credentials truthy. -/
def is_account_available (env : Env) (account_id : String) : Bool :=
  match accountsRegistry.lookup account_id with
  | none => false
  | some a =>
      let creds := get_credentials env a
      pyTruthyS creds.1 && pyTruthyS creds.2

/-- Embeds `_get_available_accounts`: keep, in order, the accounts whose
credentials are available (the source loop appends exactly the kept
ones). -/
def get_available_accounts (env : Env) (ids : List String) : List String :=
  ids.filter (is_account_available env)

/-- Embeds `_routing_profile_definitions`. -/
def routing_profile_definitions : List (String × List String) :=
  [("demo_1", ["bingx_1"]), ("demo_2", ["bingx_2"]),
   ("demo_1_2", ["bingx_1", "bingx_2"]), ("default", ["bingx_1"])]

/-- Embeds `get_account`: registry lookup, `ValueError` for an unknown id. -/
def get_account (account_id : String) : Except String AccountConfig :=
  match accountsRegistry.lookup account_id with
  | none => .error ("Unknown account_id: " ++ account_id)
  | some a => .ok a

/-- The list comprehension `[get_account(acc_id) for acc_id in ids]`:
collects the records in order, propagating a raised `ValueError`. -/
def map_get_account : List String → Except String (List AccountConfig)
  | [] => .ok []
  | i :: rest => do
      let a ← get_account i
      let l ← map_get_account rest
      return a :: l

/-- Embeds `get_routing_profile`: alias `default` to `demo_1`, reject undeclared
names, filter members by live credential availability, return their
records in declared order. -/
def get_routing_profile (env : Env) (name : String) : Except String (List AccountConfig) :=
  let name := if name = "default" then "demo_1" else name
  match routing_profile_definitions.lookup name with
  | none => .error ("Unknown routing profile: " ++ name)
  | some ids => map_get_account (get_available_accounts env ids)

/-! ## Order request model (`src/common/models/order_request.py`) -/

/-- Embeds `AccountRef`. -/
structure AccountRef where
  exchange : String
  account_id : String
  deriving DecidableEq, Repr

/-- Embeds `OpenOrderRequest` (the `meta` dictionary is carried verbatim and
never branched on, so it is omitted). -/
structure OpenOrderRequest where
  account : AccountRef
  symbol : String
  side : Option Side := none
  entry_type : String
  price : Option ℚ := none
  leverage : Option ℚ := none
  quantity : Option ℚ := none
  stop_loss : Option ℚ := none
  take_profits : List TakeProfitLevel := []
  client_order_id : Option String := none
  command : TvCommand
  margin_type : Option String := none
  tp_close_pct : Option ℚ := none
  raw_payload : Option String := none
  deriving DecidableEq, Repr

/-! ## Command routing (`src/services/order_gateway/src/main.py`) -/

/-- Embeds `ActionType`. -/
inductive ActionType where
  | OPEN_POSITION
  | CLOSE_POSITION_FULL
  | CLOSE_POSITION_PARTIAL
  | CLOSE_ALL_POSITIONS
  deriving DecidableEq, Repr

/-- Embeds `RoutedAction`. -/
structure RoutedAction where
  action_type : ActionType
  symbol : String
  side : Option Side
  quantity : Option ℚ
  tp_close_pct : Option ℚ
  margin_type : Option String
  leverage : Option ℚ
  command : TvCommand
  deriving DecidableEq, Repr

/-- Embeds `map_command_to_action`: the deterministic command table. -/
def map_command_to_action (r : OpenOrderRequest) : RoutedAction :=
  match r.command with
  | .ENTER_LONG =>
      ⟨.OPEN_POSITION, r.symbol, some .long, r.quantity, none, r.margin_type, r.leverage, r.command⟩
  | .ENTER_SHORT =>
      ⟨.OPEN_POSITION, r.symbol, some .short, r.quantity, none, r.margin_type, r.leverage, r.command⟩
  | .EXIT_LONG =>
      ⟨.CLOSE_POSITION_FULL, r.symbol, some .long, r.quantity, none, r.margin_type, r.leverage, r.command⟩
  | .EXIT_SHORT =>
      ⟨.CLOSE_POSITION_FULL, r.symbol, some .short, r.quantity, none, r.margin_type, r.leverage, r.command⟩
  | .EXIT_LONG_ALL =>
      ⟨.CLOSE_POSITION_FULL, r.symbol, some .long, none, none, r.margin_type, r.leverage, r.command⟩
  | .EXIT_SHORT_ALL =>
      ⟨.CLOSE_POSITION_FULL, r.symbol, some .short, none, none, r.margin_type, r.leverage, r.command⟩
  | .EXIT_LONG_PARTIAL =>
      ⟨.CLOSE_POSITION_PARTIAL, r.symbol, some .long, none, r.tp_close_pct, r.margin_type, r.leverage, r.command⟩
  | .EXIT_SHORT_PARTIAL =>
      ⟨.CLOSE_POSITION_PARTIAL, r.symbol, some .short, none, r.tp_close_pct, r.margin_type, r.leverage, r.command⟩
  | .CANCEL_ALL =>
      ⟨.CLOSE_ALL_POSITIONS, r.symbol, none, none, none, r.margin_type, r.leverage, r.command⟩

/-- The field names `model_dump()` emits for every `OpenOrderRequest`. -/
def model_dump_keys (_ : OpenOrderRequest) : List String :=
  ["account", "symbol", "side", "entry_type", "price", "leverage", "quantity",
   "stop_loss", "take_profits", "client_order_id", "meta", "command",
   "margin_type", "tp_close_pct", "raw_payload"]

/-- The call `OpenOrderRequest(**request.model_dump(), side=action.side)`:
Python raises `TypeError` when the unpacked dictionary already holds the
explicit keyword. -/
def rebuild_request_with_side (r : OpenOrderRequest) (sd : Side) :
    Except String OpenOrderRequest :=
  if (model_dump_keys r).contains "side" then
    .error "TypeError: got multiple values for keyword argument side"
  else .ok { r with side := some sd }

/-- What the `open_order` endpoint decides before any exchange call. -/
inductive GatewayStep where
  | httpError (status : Nat) (detail : String)
  | ack (action : ActionType)
  | dispatch (req : OpenOrderRequest)
  | raised (msg : String)
  deriving DecidableEq, Repr

/-- Embeds `open_order` up to the hand-off to `handle_bingx_order`: account
lookup, exchange check, command routing, the bare-EXIT path, the
acknowledge-only path, and the OPEN_POSITION validation. -/
def open_order (r : OpenOrderRequest) : GatewayStep :=
  match get_account r.account.account_id with
  | .error e => .httpError 400 e
  | .ok cfg =>
    if pyLower cfg.exchange ≠ "bingx" then
      .httpError 400 ("Unsupported exchange: " ++ cfg.exchange)
    else
      let action := map_command_to_action r
      if action.action_type = .CLOSE_POSITION_FULL ∧
          (r.command = .EXIT_LONG ∨ r.command = .EXIT_SHORT) then
        match r.quantity with
        | none => .httpError 400 "quantity required for EXIT commands"
        | some q =>
          if q ≤ 0 then .httpError 400 "quantity required for EXIT commands"
          else
            match r.side with
            | some _ => .dispatch r
            | none =>
              match action.side with
              | none => .httpError 400 "side required for EXIT commands"
              | some sd =>
                match rebuild_request_with_side r sd with
                | .error m => .raised m
                | .ok r2 => .dispatch r2
      else if action.action_type ≠ .OPEN_POSITION then
        .ack action.action_type
      else
        match r.quantity with
        | none => .httpError 400 "quantity required for OPEN_POSITION actions"
        | some q =>
          if q ≤ 0 then .httpError 400 "quantity required for OPEN_POSITION actions"
          else
            match r.side with
            | some _ => .dispatch r
            | none =>
              match action.side with
              | none => .httpError 400 "side required for OPEN_POSITION actions"
              | some sd =>
                match rebuild_request_with_side r sd with
                | .error m => .raised m
                | .ok r2 => .dispatch r2

/-! ## BingX wire protocol
(`src/services/order_gateway/src/exchanges/bingx_client.py`) -/

/-- A query parameter value before url-encoding: Python keeps strings as
strings and floats as floats (stringified only by `urlencode`). -/
inductive BingxParam where
  | str (s : String)
  | rat (q : ℚ)
  deriving DecidableEq, Repr

/-- Embeds `_map_position_side`: `buy`/`long` → `LONG`, `sell`/`short` → `SHORT`,
anything else raises `ValueError`. -/
def map_position_side (side : String) : Except String String :=
  let s := pyLower side
  if s = "buy" || s = "long" then .ok "LONG"
  else if s = "sell" || s = "short" then .ok "SHORT"
  else .error ("Unsupported side for positionSide: " ++ side)

/-- The exit-command set tested by `bingx_place_order`. -/
def is_exit_command (c : TvCommand) : Bool :=
  match c with
  | .EXIT_LONG | .EXIT_SHORT | .EXIT_LONG_ALL | .EXIT_SHORT_ALL => true
  | _ => false

/-- The parameter map built by `bingx_place_order` (insertion order as in
the source; `leverage` is `str(int(x))`, truncation of a positive float,
i.e. the floor). A `None` side reaches `_map_position_side` as an
`AttributeError` on `None.lower()`; a `None` quantity raises
`ValueError`. -/
def bingx_order_params (cfg : AccountConfig) (r : OpenOrderRequest) :
    Except String (List (String × BingxParam)) := do
  let symbol := to_bingx_symbol r.symbol
  let is_exit := is_exit_command r.command
  let side :=
    if is_exit then (if r.side = some .long then "SELL" else "BUY")
    else (if r.side = some .long then "BUY" else "SELL")
  let order_type := if r.entry_type = "market" then "MARKET" else "LIMIT"
  let position_side ← match r.side with
    | none => Except.error "AttributeError: NoneType has no attribute lower"
    | some sd => map_position_side sd.str
  let quantity ← match r.quantity with
    | some q => Except.ok q
    | none => Except.error "BingX order requires quantity; got None"
  let params := [("symbol", BingxParam.str symbol), ("side", BingxParam.str side),
                 ("type", BingxParam.str order_type), ("quantity", BingxParam.rat quantity),
                 ("positionSide", BingxParam.str position_side)]
  let params := if is_exit && cfg.supports_reduce_only then
      params ++ [("reduceOnly", BingxParam.str "true")]
    else params
  let params := match r.price with
    | some pr => if r.entry_type = "limit" then params ++ [("price", BingxParam.rat pr)] else params
    | none => params
  let params := match r.leverage with
    | some lv => params ++ [("leverage", BingxParam.str (toString lv.floor))]
    | none => params
  return params

/-- What the exchange interaction yields: an `httpx` transport error, or
an HTTP response carrying a status and the parsed JSON `code` field. -/
inductive ExchangeReply where
  | transportError (msg : String)
  | response (status : Nat) (code : Option Int) (msg : Option String)
  deriving DecidableEq, Repr

/-- How `bingx_place_order` leaves its caller: a returned body, a raised
`httpx` error (transport or `raise_for_status`), or a raised
`BingxAPIError` with its `is_no_position` flag. -/
inductive ClientOutcome where
  | ok (code : Option Int)
  | httpStatusError (status : Nat)
  | transportError (msg : String)
  | apiError (api_code : Int) (is_no_position : Bool)
  deriving DecidableEq, Repr

/-- The response-classification tail of `bingx_place_order`:
`raise_for_status` for HTTP ≥ 400, then a non-zero JSON `code` raises
`BingxAPIError` — `is_no_position` exactly for code 101205. -/
def classify_bingx_response : ExchangeReply → ClientOutcome
  | .transportError m => .transportError m
  | .response status code _ =>
      if status ≥ 400 then .httpStatusError status
      else
        match code with
        | none => .ok none
        | some c =>
            if c = 0 then .ok (some 0)
            else if c = 101205 then .apiError c true
            else .apiError c false

/-- The body of a gateway HTTP reply, as the orchestrator reads it with
`data.get(...)`: the gateway's 200 bodies carry none of these keys, so
they read as the defaults. -/
structure GatewayBody where
  ok : Bool := false
  order_status : Option String := none
  api_code : Option Int := none
  api_msg : Option String := none
  deriving DecidableEq, Repr

/-- Embeds `handle_bingx_order`: dry mode short-circuits; `ValueError`s (missing
credentials, unsupported mode, missing quantity) become HTTP 400; a
`RuntimeError` would become 400; every other exception — including
`BingxAPIError`, which subclasses neither — falls into the generic
`except Exception` branch and becomes HTTP 502. -/
def handle_bingx_order (env : Env) (cfg : AccountConfig) (r : OpenOrderRequest)
    (reply : ExchangeReply) : Nat × GatewayBody :=
  if cfg.mode = "dry" then (200, {})
  else
    let creds := get_credentials env cfg
    if !(pyTruthyS creds.1 && pyTruthyS creds.2) then (400, {})
    else if !(cfg.mode = "test" || cfg.mode = "demo" || cfg.mode = "live") then (400, {})
    else
      match bingx_order_params cfg r with
      | .error m =>
          if m = "AttributeError: NoneType has no attribute lower" then (502, {}) else (400, {})
      | .ok _ =>
          match classify_bingx_response reply with
          | .ok _ => (200, {})
          | .httpStatusError _ => (502, {})
          | .transportError _ => (502, {})
          | .apiError _ _ => (502, {})

/-! ## Fan-out orchestrator (`src/services/signal_orchestrator/src/main.py`) -/

/-- What the orchestrator's POST to the order gateway yields for one
account: a transport error or a status with an optional JSON body. -/
inductive OrchReply where
  | transportError (msg : String)
  | http (status : Nat) (body : Option GatewayBody)
  deriving DecidableEq, Repr

/-- One per-account entry of the aggregated `results` list. -/
inductive OrchEntry where
  | errorEntry (account_id : String) (error : String)
  | successEntry (account_id : String) (status : Nat)
  deriving DecidableEq, Repr

/-- The body of the fan-out loop for one account: transport error and
non-200 append error entries; a `no_position`/101205 body and an `ok`
body append success entries; everything else appends an error entry.
Every branch appends exactly one entry and then continues the loop. -/
def route_account_result (acc : AccountConfig) (reply : OrchReply) : OrchEntry :=
  match reply with
  | .transportError m => .errorEntry acc.account_id m
  | .http status body =>
      if status ≠ 200 then .errorEntry acc.account_id ("HTTP " ++ toString status)
      else
        let api_code := (body.map GatewayBody.api_code).getD none
        let order_status := (body.map GatewayBody.order_status).getD none
        let okFlag := (body.map GatewayBody.ok).getD false
        if order_status = some "no_position" ∧ api_code = some 101205 then
          .successEntry acc.account_id 200
        else if okFlag = false then
          .errorEntry acc.account_id (((body.map GatewayBody.api_msg).getD none).getD "Unknown error")
        else .successEntry acc.account_id status

/-- The fan-out over the resolved account list: one entry per account, in
order, each computed from that account's own gateway reply. -/
def handle_signal_results (reply : AccountConfig → OrchReply)
    (accounts : List AccountConfig) : List OrchEntry :=
  accounts.map (fun a => route_account_result a (reply a))

/-! ## SHA-256, HMAC and the signed query
(`build_signed_query` in `bingx_client.py`; `hashlib.sha256`,
`hmac.new(...).hexdigest()` and `urllib.parse.urlencode` from the Python
standard library, embedded as the algorithms they implement). 32-bit
words are `Nat` reduced `% 2 ^ 32` at every operation that can
overflow. -/

/-- Wrap to 32 bits. -/
def w32 (n : Nat) : Nat := n % 4294967296

/-- Addition wrapped to 32 bits. -/
def add32 (a b : Nat) : Nat := (a + b) % 4294967296

/-- Bitwise complement on 32 bits (operand below `2 ^ 32`). -/
def not32 (x : Nat) : Nat := 4294967295 - x

/-- Right rotation on 32 bits. -/
def rotr32 (n x : Nat) : Nat := w32 ((x >>> n) ||| (x <<< (32 - n)))

/-- SHA-256 choose. -/
def shaCh (x y z : Nat) : Nat := Nat.xor (x &&& y) (not32 x &&& z)

/-- SHA-256 majority. -/
def shaMaj (x y z : Nat) : Nat := Nat.xor (Nat.xor (x &&& y) (x &&& z)) (y &&& z)

/-- SHA-256 Σ₀. -/
def bigSigma0 (x : Nat) : Nat := Nat.xor (Nat.xor (rotr32 2 x) (rotr32 13 x)) (rotr32 22 x)

/-- SHA-256 Σ₁. -/
def bigSigma1 (x : Nat) : Nat := Nat.xor (Nat.xor (rotr32 6 x) (rotr32 11 x)) (rotr32 25 x)

/-- SHA-256 σ₀. -/
def smallSigma0 (x : Nat) : Nat := Nat.xor (Nat.xor (rotr32 7 x) (rotr32 18 x)) (x >>> 3)

/-- SHA-256 σ₁. -/
def smallSigma1 (x : Nat) : Nat := Nat.xor (Nat.xor (rotr32 17 x) (rotr32 19 x)) (x >>> 10)

/-- The 64 SHA-256 round constants. -/
def shaK : List Nat :=
  [1116352408, 1899447441, 3049323471, 3921009573, 961987163,
   1508970993, 2453635748, 2870763221, 3624381080, 310598401,
   607225278, 1426881987, 1925078388, 2162078206, 2614888103,
   3248222580, 3835390401, 4022224774, 264347078, 604807628,
   770255983, 1249150122, 1555081692, 1996064986, 2554220882,
   2821834349, 2952996808, 3210313671, 3336571891, 3584528711,
   113926993, 338241895, 666307205, 773529912, 1294757372,
   1396182291, 1695183700, 1986661051, 2177026350, 2456956037,
   2730485921, 2820302411, 3259730800, 3345764771, 3516065817,
   3600352804, 4094571909, 275423344, 430227734, 506948616,
   659060556, 883997877, 958139571, 1322822218, 1537002063,
   1747873779, 1955562222, 2024104815, 2227730452, 2361852424,
   2428436474, 2756734187, 3204031479, 3329325298]

/-- The SHA-256 initial hash value. -/
def shaH0 : List Nat :=
  [0x6a09e667, 0xbb67ae85, 0x3c6ef372, 0xa54ff53a, 0x510e527f, 0x9b05688c, 0x1f83d9ab, 0x5be0cd19]

/-- A number as 8 big-endian bytes. -/
def be64 (n : Nat) : List Nat :=
  [(n >>> 56) % 256, (n >>> 48) % 256, (n >>> 40) % 256, (n >>> 32) % 256,
   (n >>> 24) % 256, (n >>> 16) % 256, (n >>> 8) % 256, n % 256]

/-- SHA-256 padding: `0x80`, zeros to 56 mod 64, the bit length as 8
big-endian bytes. -/
def sha256Pad (ms : List Nat) : List Nat :=
  ms ++ [0x80] ++ List.replicate ((119 - ms.length % 64) % 64) 0 ++ be64 (8 * ms.length)

/-- Split into 64-byte blocks. -/
def chunks64 (l : List Nat) : List (List Nat) :=
  match l with
  | [] => []
  | x :: xs =>
      (x :: xs).take 64 :: chunks64 ((x :: xs).drop 64)
termination_by l.length
decreasing_by
  simp
  omega

/-- Four big-endian bytes at a time into 32-bit words. -/
def toWords : List Nat → List Nat
  | b0 :: b1 :: b2 :: b3 :: rest =>
      ((b0 <<< 24) ||| (b1 <<< 16) ||| (b2 <<< 8) ||| b3) :: toWords rest
  | _ => []

/-- Extend the message schedule by one word. -/
def scheduleStep (w : List Nat) : List Nat :=
  let t := w.length
  w ++ [add32 (add32 (smallSigma1 (w.getD (t - 2) 0)) (w.getD (t - 7) 0))
              (add32 (smallSigma0 (w.getD (t - 15) 0)) (w.getD (t - 16) 0))]

/-- The eight working variables of the compression loop. -/
structure ShaState where
  a : Nat
  b : Nat
  c : Nat
  d : Nat
  e : Nat
  f : Nat
  g : Nat
  h : Nat

/-- One compression round. -/
def compressRound (st : ShaState) (kw : Nat × Nat) : ShaState :=
  let t1 := add32 st.h (add32 (bigSigma1 st.e) (add32 (shaCh st.e st.f st.g) (add32 kw.1 kw.2)))
  let t2 := add32 (bigSigma0 st.a) (shaMaj st.a st.b st.c)
  ⟨add32 t1 t2, st.a, st.b, st.c, add32 st.d t1, st.e, st.f, st.g⟩

/-- Compress one 64-byte block into the running hash. -/
def compressBlock (hv : List Nat) (block : List Nat) : List Nat :=
  let w := scheduleStep^[48] (toWords block)
  let st0 : ShaState := ⟨hv.getD 0 0, hv.getD 1 0, hv.getD 2 0, hv.getD 3 0,
                         hv.getD 4 0, hv.getD 5 0, hv.getD 6 0, hv.getD 7 0⟩
  let st := (shaK.zip w).foldl compressRound st0
  [add32 (hv.getD 0 0) st.a, add32 (hv.getD 1 0) st.b, add32 (hv.getD 2 0) st.c,
   add32 (hv.getD 3 0) st.d, add32 (hv.getD 4 0) st.e, add32 (hv.getD 5 0) st.f,
   add32 (hv.getD 6 0) st.g, add32 (hv.getD 7 0) st.h]

/-- The SHA-256 digest as 8 words. -/
def sha256Words (ms : List Nat) : List Nat :=
  (chunks64 (sha256Pad ms)).foldl compressBlock shaH0

/-- A 32-bit word as 4 big-endian bytes. -/
def wordBytes (w : Nat) : List Nat :=
  [(w >>> 24) % 256, (w >>> 16) % 256, (w >>> 8) % 256, w % 256]

/-- Words to bytes. -/
def wordsToBytes : List Nat → List Nat
  | [] => []
  | w :: ws => wordBytes w ++ wordsToBytes ws

/-- Embeds `hashlib.sha256(...).digest()`: the 32 digest bytes. -/
def sha256 (ms : List Nat) : List Nat := wordsToBytes (sha256Words ms)

/-- Embeds `hmac.new(key, msg, hashlib.sha256).digest()`. -/
def hmacSha256 (key msg : List Nat) : List Nat :=
  let k0 := if key.length > 64 then sha256 key else key
  let k0 := k0 ++ List.replicate (64 - k0.length) 0
  sha256 ((k0.map (fun b => Nat.xor b 0x5c)) ++
          sha256 ((k0.map (fun b => Nat.xor b 0x36)) ++ msg))

/-- The lowercase hex digits in order. -/
def hexAlphabet : List Char := "0123456789abcdef".data

/-- One lowercase hex digit. -/
def hexDigit (n : Nat) : Char := hexAlphabet.getD (n % 16) Char.instInhabited.default

/-- One uppercase hex digit (used by percent-encoding). -/
def hexDigitUpper (n : Nat) : Char := "0123456789ABCDEF".data.getD (n % 16) Char.instInhabited.default

/-- Embeds `.hexdigest()`: each byte as two lowercase hex characters. -/
def hexDigest (bytes : List Nat) : String :=
  String.mk (bytes.foldr (fun b acc => hexDigit (b / 16) :: hexDigit b :: acc) [])

/-- The UTF-8 encoding of one character (`str.encode("utf-8")`). -/
def charUtf8 (c : Char) : List Nat :=
  let n := c.toNat
  if n < 0x80 then [n]
  else if n < 0x800 then [0xC0 ||| (n >>> 6), 0x80 ||| (n &&& 0x3F)]
  else if n < 0x10000 then
    [0xE0 ||| (n >>> 12), 0x80 ||| ((n >>> 6) &&& 0x3F), 0x80 ||| (n &&& 0x3F)]
  else
    [0xF0 ||| (n >>> 18), 0x80 ||| ((n >>> 12) &&& 0x3F),
     0x80 ||| ((n >>> 6) &&& 0x3F), 0x80 ||| (n &&& 0x3F)]

/-- The UTF-8 bytes of a string. -/
def strBytes (s : String) : List Nat :=
  s.data.foldr (fun c acc => charUtf8 c ++ acc) []

/-- The bytes `urllib.parse.quote_plus` passes through unchanged:
ASCII letters, digits, and `_.-~`. -/
def safeByte (b : Nat) : Bool :=
  (0x41 ≤ b && b ≤ 0x5A) || (0x61 ≤ b && b ≤ 0x7A) || (0x30 ≤ b && b ≤ 0x39) ||
  b = 0x5F || b = 0x2E || b = 0x2D || b = 0x7E

/-- Embeds `quote_plus` on UTF-8 bytes: space to `+`, safe bytes verbatim,
everything else percent-encoded with uppercase hex. -/
def quotePlusBytes : List Nat → List Char
  | [] => []
  | b :: rest =>
      (if b = 0x20 then ['+']
       else if safeByte b then [Char.ofNat b]
       else ['%', hexDigitUpper (b / 16), hexDigitUpper b]) ++ quotePlusBytes rest

/-- Embeds `urllib.parse.quote_plus`. -/
def quote_plus (s : String) : String := String.mk (quotePlusBytes (strBytes s))

/-- Embeds `urllib.parse.urlencode` on a list of already-stringified pairs. -/
def urlencode (items : List (String × String)) : String :=
  String.intercalate "&" (items.map (fun kv => quote_plus kv.1 ++ "=" ++ quote_plus kv.2))

/-- Python `params.setdefault("timestamp", now)`: appended (insertion
order) only when the key is absent. -/
def withTimestamp (now : Nat) (params : List (String × String)) : List (String × String) :=
  if params.any (fun kv => kv.1 = "timestamp") then params
  else params ++ [("timestamp", toString now)]

/-- Embeds `sorted(params.items(), key=kv[0])`: stable sort by key, code-point
lexicographic. -/
def sortParams (params : List (String × String)) : List (String × String) :=
  params.mergeSort (fun a b => decide (a.1 ≤ b.1))

/-- The encoded query of `build_signed_query` before signing. -/
def query_of (now : Nat) (params : List (String × String)) : String :=
  urlencode (sortParams (withTimestamp now params))

/-- The hex HMAC-SHA256 signature of `build_signed_query`. -/
def signature_of (now : Nat) (params : List (String × String)) (secret : String) : String :=
  hexDigest (hmacSha256 (strBytes secret) (strBytes (query_of now params)))

/-- Embeds `build_signed_query`: timestamp defaulted, keys sorted, URL-encoded,
HMAC-SHA256 signed, signature appended as the final parameter. `now` is
the millisecond clock read `int(time.time() * 1000)`, passed explicitly.
-/
def build_signed_query (now : Nat) (params : List (String × String)) (secret : String) : String :=
  query_of now params ++ "&signature=" ++ signature_of now params secret

/-! ## Claim theorems -/

/-- C8: `to_bingx_symbol` maps `BTCUSDT` to `BTC-USDT`, is idempotent on
every input, and leaves any symbol that ends in no known quote-asset
suffix unchanged. -/
theorem c8_symbol_translation :
    to_bingx_symbol "BTCUSDT" = "BTC-USDT"
    ∧ (∀ s, to_bingx_symbol (to_bingx_symbol s) = to_bingx_symbol s)
    ∧ (∀ s, strEndsWith s "USDT" = false → strEndsWith s "USDC" = false →
        to_bingx_symbol s = s) := by
  refine ⟨by decide, to_bingx_symbol_idem, fun s h1 h2 => ?_⟩
  simp [to_bingx_symbol, h1, h2]

/-- Witness for C8 at the concrete symbols of the claim. -/
theorem c8_symbol_translation_witness :
    to_bingx_symbol "UNKNOWN" = "UNKNOWN" ∧ to_bingx_symbol "BTC-USDT" = "BTC-USDT" := by
  constructor
  · exact c8_symbol_translation.2.2 "UNKNOWN" (by decide) (by decide)
  · have h := c8_symbol_translation.2.1 "BTCUSDT"
    rw [c8_symbol_translation.1] at h
    exact h

/-- C6: the fan-out produces exactly one result entry per resolved
account, in list order, and the entry of each account is a function of
that account and its own gateway reply alone — so a hard or transport
error on one account can neither remove another account from the results
nor change its entry. -/
theorem c6_fanout_isolation (reply : AccountConfig → OrchReply)
    (accounts : List AccountConfig) :
    (handle_signal_results reply accounts).length = accounts.length
    ∧ ∀ i, i < accounts.length →
        (handle_signal_results reply accounts)[i]? =
          accounts[i]?.map (fun a => route_account_result a (reply a)) := by
  refine ⟨by simp [handle_signal_results], fun i _ => ?_⟩
  simp [handle_signal_results, List.getElem?_map]

/-- The reply function of the C6 witness: the first account fails at the
gateway with HTTP 502, the second succeeds. -/
def c6reply : AccountConfig → OrchReply := fun a =>
  if a.account_id = "bingx_1" then .http 502 none
  else .http 200 (some { ok := true })

/-- The account list of the C6 witness. -/
def c6accounts : List AccountConfig := [bingx_1, bingx_2]

/-- Witness for C6: with the first account failing hard, the results
still hold two entries and the second account's entry is its own
success. -/
theorem c6_fanout_isolation_witness :
    (handle_signal_results c6reply c6accounts).length = 2
    ∧ (handle_signal_results c6reply c6accounts)[1]? =
        some (.successEntry "bingx_2" 200) := by
  constructor
  · exact (c6_fanout_isolation c6reply c6accounts).1.trans rfl
  · have h := (c6_fanout_isolation c6reply c6accounts).2 1 (by decide)
    exact h.trans rfl

/-- C9: a routed action of kind `CLOSE_POSITION_PARTIAL`,
`CLOSE_ALL_POSITIONS`, or a `CLOSE_POSITION_FULL` that does not come
from a bare `EXIT_LONG`/`EXIT_SHORT` (i.e. comes from the `_ALL`
variants) is acknowledged as recognized-but-not-implemented and is never
dispatched to the exchange. -/
theorem c9_unimplemented_actions_acknowledged (r : OpenOrderRequest)
    (cfg : AccountConfig)
    (hacc : get_account r.account.account_id = .ok cfg)
    (hexch : pyLower cfg.exchange = "bingx")
    (hcmd : r.command = .EXIT_LONG_ALL ∨ r.command = .EXIT_SHORT_ALL ∨
      r.command = .EXIT_LONG_PARTIAL ∨ r.command = .EXIT_SHORT_PARTIAL ∨
      r.command = .CANCEL_ALL) :
    open_order r = .ack (map_command_to_action r).action_type
    ∧ ∀ r2, open_order r ≠ .dispatch r2 := by
  have hmain : open_order r = .ack (map_command_to_action r).action_type := by
    rcases hcmd with h | h | h | h | h <;>
      simp [open_order, hacc, hexch, map_command_to_action, h]
  exact ⟨hmain, fun r2 hdisp => by rw [hmain] at hdisp; cases hdisp⟩

/-- The request of the C9 witness: an `EXIT_LONG_PARTIAL` against a
registered account. -/
def c9req : OpenOrderRequest :=
  { account := ⟨"bingx", "bingx_1"⟩, symbol := "BTCUSDT", side := some .long,
    entry_type := "market", quantity := some (mkRat 1 1000), tp_close_pct := some 50,
    command := .EXIT_LONG_PARTIAL }

/-- Witness for C9: the partial-exit request is acknowledged without
dispatch. -/
theorem c9_unimplemented_actions_acknowledged_witness :
    open_order c9req = .ack .CLOSE_POSITION_PARTIAL := by
  have h := (c9_unimplemented_actions_acknowledged c9req bingx_1 (by decide) (by decide)
    (Or.inr (Or.inr (Or.inl rfl)))).1
  exact h.trans (by decide)

/-- The order and environment of the C1 evaluation: a bare `EXIT_LONG`
with a positive quantity against account `bingx_1`, whose credentials
are present. -/
def c1req : OpenOrderRequest :=
  { account := ⟨"bingx", "bingx_1"⟩, symbol := "BTC-USDT", side := some .long,
    entry_type := "market", quantity := some (mkRat 1 1000), command := .EXIT_LONG }

/-- The environment of the C1 evaluation. -/
def c1env : Env := fun k =>
  if k = "BINGX_1_API_KEY" || k = "BINGX_1_API_SECRET" then some "k" else none

/-- C1, evaluated at the failing input: the exchange answers HTTP 200
with api code 101205 on an exit; the client does flag it
`is_no_position`, but `handle_bingx_order` catches `BingxAPIError` only
in its generic `except Exception` branch and returns HTTP 502, which the
orchestrator records as a per-account error entry — the soft no-op is
reported as a failure, contradicting the claim. -/
theorem c1_no_position_exit_reported_as_failure :
    classify_bingx_response (.response 200 (some 101205) (some "No position to close"))
      = .apiError 101205 true
    ∧ handle_bingx_order c1env bingx_1 c1req
        (.response 200 (some 101205) (some "No position to close")) = (502, {})
    ∧ route_account_result bingx_1 (.http 502 none) = .errorEntry "bingx_1" "HTTP 502" := by
  refine ⟨by decide, by decide, by decide⟩

/-- The payload of the C7 evaluation: a legacy-format payload that
supplies only `entry_type="limit"` (no `order_type` key in the JSON, so
pydantic fills the field default `"market"`) and no entry price. -/
def c7payload : TradingViewWebhookPayload :=
  { command := some "ENTER_LONG", symbol := "BTCUSDT",
    entry_type := some "limit", quantity := some 1 }

/-- C7, evaluated at the failing input: because the `order_type` field
default is `"market"` rather than `None`, the `or`-chain of
`get_order_type` never reaches the legacy `entry_type` field — the
payload resolves to a `market` order and the limit-without-price
rejection never fires, contradicting the claim that `entry_type="limit"`
alone resolves to a limit order. -/
theorem c7_legacy_entry_type_shadowed :
    c7payload.order_type = some "market"
    ∧ c7payload.entry_price = none
    ∧ get_order_type c7payload = "market"
    ∧ (map_tradingview_payload_to_normalized_signal c7payload).map
        NormalizedSignal.entry_type = .ok "market" := by
  refine ⟨rfl, rfl, by decide, by decide⟩

/-- The exit request of the C10 evaluation: `EXIT_LONG`, positive
quantity, `side` absent. -/
def c10exitReq : OpenOrderRequest :=
  { account := ⟨"bingx", "bingx_1"⟩, symbol := "BTCUSDT", side := none,
    entry_type := "market", quantity := some (mkRat 1 1000), command := .EXIT_LONG }

/-- The entry request of the C10 evaluation: `ENTER_LONG`, positive
quantity, `side` absent. -/
def c10enterReq : OpenOrderRequest :=
  { account := ⟨"bingx", "bingx_1"⟩, symbol := "BTCUSDT", side := none,
    entry_type := "market", quantity := some (mkRat 1 1000), command := .ENTER_LONG }

/-- C10, evaluated at the failing inputs: the side backfill
`OpenOrderRequest(**request.model_dump(), side=action.side)` passes the
`side` key twice (it is always among the dumped keys), so Python raises
`TypeError` instead of dispatching — for the exit path and the entry
path alike — contradicting the claim that the reconstruction succeeds. -/
theorem c10_side_backfill_raises_typeerror :
    open_order c10exitReq = .raised "TypeError: got multiple values for keyword argument side"
    ∧ open_order c10enterReq = .raised "TypeError: got multiple values for keyword argument side" := by
  refine ⟨by decide, by decide⟩

/-- C3: when the raw command field already parses as a canonical command
that implies a side, normalization outputs that command-implied side,
whatever side value the payload carries. -/
theorem c3_command_overrides_side (p : TradingViewWebhookPayload)
    (c : TvCommand) (sd : Side) (sig : NormalizedSignal)
    (hc : TvCommand.ofString? (pyUpper (pyStrip (pyOrStr p.command "ENTER"))) = some c)
    (hs : map_command_to_side c = some sd)
    (hok : map_tradingview_payload_to_normalized_signal p = .ok sig) :
    sig.side = some sd := by
  simp only [map_tradingview_payload_to_normalized_signal,
    normalize_tradingview_payload, hc] at hok
  simp only [Except.bind, bind] at hok
  simp only [hc, hs] at hok
  split at hok
  · cases hok
  · split at hok
    · cases hok
    · cases hok
      rfl

/-- The payload of the C3 witness: canonical `EXIT_SHORT` command with a
stale `side="buy"` field. -/
def c3payload : TradingViewWebhookPayload :=
  { command := some "EXIT_SHORT", symbol := "BTCUSDT", side := some "buy",
    quantity := some 1 }

/-- The signal the C3 witness payload normalizes to. -/
def c3sig : NormalizedSignal :=
  { command := .EXIT_SHORT, symbol := "BTCUSDT", side := some .short,
    entry_type := "market", entry_price := none, quantity := some 1,
    leverage := none, margin_type := none, tp_close_pct := none,
    stop_loss := none, take_profits := [], routing_profile := some "default" }

/-- Witness for C3: the `EXIT_SHORT`/`side="buy"` payload normalizes with
`side = short`. -/
theorem c3_command_overrides_side_witness :
    map_tradingview_payload_to_normalized_signal c3payload = .ok c3sig
    ∧ c3sig.side = some .short := by
  refine ⟨by decide, ?_⟩
  exact c3_command_overrides_side c3payload .EXIT_SHORT .short c3sig
    (by decide) rfl (by decide)

theorem map_position_side_long : map_position_side (Side.str .long) = .ok "LONG" := by decide

theorem map_position_side_short : map_position_side (Side.str .short) = .ok "SHORT" := by decide

set_option maxHeartbeats 2000000 in
/-- C2: in the wire request, `positionSide` always carries the logical
side (`long→LONG`, `short→SHORT`), while the buy/sell `side` is the
direct direction for entries (`long→BUY`, `short→SELL`) and the flipped
direction for exits (`long→SELL`, `short→BUY`) — the two fields are set
independently. -/
theorem c2_side_positionSide_mapping (cfg : AccountConfig) (r : OpenOrderRequest)
    (sd : Side) (ps : List (String × BingxParam))
    (hside : r.side = some sd)
    (hok : bingx_order_params cfg r = .ok ps) :
    ps.lookup "positionSide" = some (.str (if sd = .long then "LONG" else "SHORT"))
    ∧ (is_exit_command r.command = true →
        ps.lookup "side" = some (.str (if sd = .long then "SELL" else "BUY")))
    ∧ (is_exit_command r.command = false →
        ps.lookup "side" = some (.str (if sd = .long then "BUY" else "SELL"))) := by
  cases sd <;>
    simp only [bingx_order_params, hside, map_position_side_long, map_position_side_short,
      Except.bind, bind] at hok <;>
    split at hok <;>
    cases hok <;>
    refine ⟨?_, fun hex => ?_, fun hex => ?_⟩
  all_goals repeat' split
  all_goals simp_all [List.lookup]

/-- The exit order of the C2 witness: `EXIT_LONG` with logical side
`long` against an account without reduce-only support. -/
def c2req : OpenOrderRequest :=
  { account := ⟨"bingx", "bingx_1"⟩, symbol := "BTCUSDT", side := some .long,
    entry_type := "market", quantity := some (mkRat 1 1000), command := .EXIT_LONG }

/-- The parameter list the C2 witness request produces. -/
def c2params : List (String × BingxParam) :=
  [("symbol", .str "BTC-USDT"), ("side", .str "SELL"), ("type", .str "MARKET"),
   ("quantity", .rat (mkRat 1 1000)), ("positionSide", .str "LONG")]

/-- Witness for C2: the `EXIT_LONG`/`side=long` request sends `side=SELL`
and `positionSide=LONG` simultaneously. -/
theorem c2_side_positionSide_mapping_witness :
    bingx_order_params bingx_1 c2req = .ok c2params
    ∧ c2params.lookup "side" = some (.str "SELL")
    ∧ c2params.lookup "positionSide" = some (.str "LONG") := by
  have h := c2_side_positionSide_mapping bingx_1 c2req .long c2params rfl (by decide)
  exact ⟨by decide, by simpa using h.2.1 rfl, by simpa using h.1⟩

theorem registry_id (i : String) (a : AccountConfig)
    (h : accountsRegistry.lookup i = some a) : a.account_id = i := by
  simp only [accountsRegistry, List.lookup] at h
  split at h
  · next heq => cases h; simp at heq; rw [heq]; rfl
  · split at h
    · next heq => cases h; simp at heq; rw [heq]; rfl
    · split at h
      · next heq => cases h; simp at heq; rw [heq]; rfl
      · cases h

theorem map_get_account_ok (l : List String)
    (h : ∀ i ∈ l, (accountsRegistry.lookup i).isSome = true) :
    ∃ accs, map_get_account l = .ok accs ∧ accs.map AccountConfig.account_id = l := by
  induction l with
  | nil => exact ⟨[], rfl, rfl⟩
  | cons i rest ih =>
      have hi := h i (by simp)
      obtain ⟨a, ha⟩ : ∃ a, accountsRegistry.lookup i = some a := by
        cases hh : accountsRegistry.lookup i
        · rw [hh] at hi; cases hi
        · exact ⟨_, rfl⟩
      obtain ⟨accs, hrec, hmap⟩ := ih (fun j hj => h j (by simp [hj]))
      refine ⟨a :: accs, ?_, ?_⟩
      · simp [map_get_account, get_account, ha, hrec, Except.bind, bind, Except.pure, pure]
      · simp [hmap, registry_id i a ha]

theorem get_routing_profile_eval (env : Env) (nm : String) (ids : List String)
    (hlk : routing_profile_definitions.lookup (if nm = "default" then "demo_1" else nm)
      = some ids)
    (hall : ∀ i ∈ ids, (accountsRegistry.lookup i).isSome = true) :
    ∃ accs, get_routing_profile env nm = .ok accs ∧
      accs.map AccountConfig.account_id = ids.filter (is_account_available env) := by
  obtain ⟨accs, h1, h2⟩ := map_get_account_ok (ids.filter (is_account_available env))
    (fun i hi => hall i (List.mem_of_mem_filter hi))
  refine ⟨accs, ?_, h2⟩
  unfold get_routing_profile
  simp only [hlk]
  exact h1

/-- C5: for a declared profile name, resolution returns exactly the
declared member accounts whose credentials currently resolve, in
declaration order; when every member is credential-unavailable it
returns the empty list without raising; and it raises the
unknown-profile error exactly for undeclared names. -/
theorem c5_routing_profile_resolution (env : Env) (name : String) :
    ((routing_profile_definitions.lookup name).isSome = true →
      ∃ accs, get_routing_profile env name = .ok accs ∧
        accs.map AccountConfig.account_id =
          ((routing_profile_definitions.lookup
              (if name = "default" then "demo_1" else name)).getD []).filter
            (is_account_available env))
    ∧ ((routing_profile_definitions.lookup name).isSome = true →
        (∀ i ∈ ((routing_profile_definitions.lookup
            (if name = "default" then "demo_1" else name)).getD []),
          is_account_available env i = false) →
        get_routing_profile env name = .ok [])
    ∧ ((routing_profile_definitions.lookup name).isSome = false →
        ∃ msg, get_routing_profile env name = .error msg) := by
  by_cases hn : (routing_profile_definitions.lookup name).isSome = true
  · have hnames : name = "demo_1" ∨ name = "demo_2" ∨ name = "demo_1_2" ∨ name = "default" := by
      by_contra hcon
      push_neg at hcon
      obtain ⟨n1, n2, n3, n4⟩ := hcon
      have b1 : (name == "demo_1") = false := beq_eq_false_iff_ne.mpr n1
      have b2 : (name == "demo_2") = false := beq_eq_false_iff_ne.mpr n2
      have b3 : (name == "demo_1_2") = false := beq_eq_false_iff_ne.mpr n3
      have b4 : (name == "default") = false := beq_eq_false_iff_ne.mpr n4
      simp [routing_profile_definitions, List.lookup, b1, b2, b3, b4] at hn
    have hmain : ∃ ids, routing_profile_definitions.lookup
        (if name = "default" then "demo_1" else name) = some ids ∧
        (∀ i ∈ ids, (accountsRegistry.lookup i).isSome = true) := by
      rcases hnames with h | h | h | h <;> subst h
      · exact ⟨["bingx_1"], rfl, by decide⟩
      · exact ⟨["bingx_2"], rfl, by decide⟩
      · exact ⟨["bingx_1", "bingx_2"], rfl, by decide⟩
      · exact ⟨["bingx_1"], rfl, by decide⟩
    obtain ⟨ids, hlk, hall⟩ := hmain
    obtain ⟨accs, h1, h2⟩ := get_routing_profile_eval env name ids hlk hall
    refine ⟨fun _ => ⟨accs, h1, by rw [h2, hlk]; rfl⟩, fun _ hunavail => ?_, fun hfalse => ?_⟩
    · have hfilter : ids.filter (is_account_available env) = [] := by
        rw [List.filter_eq_nil_iff]
        intro i hi
        have := hunavail i (by rw [hlk]; simpa using hi)
        simp [this]
      rw [hfilter] at h2
      have : accs = [] := by simpa using h2
      rw [this] at h1
      exact h1
    · rw [hn] at hfalse; cases hfalse
  · simp only [Bool.not_eq_true] at hn
    have hnone : routing_profile_definitions.lookup name = none := by
      cases hh : routing_profile_definitions.lookup name
      · rfl
      · rw [hh] at hn; cases hn
    have n4 : ¬(name = "default") := by
      intro h
      subst h
      simp [routing_profile_definitions, List.lookup] at hnone
    refine ⟨fun htrue => ?_, fun htrue => ?_, fun _ => ?_⟩
    · rw [hnone] at htrue; cases htrue
    · rw [hnone] at htrue; cases htrue
    · refine ⟨"Unknown routing profile: " ++ name, ?_⟩
      unfold get_routing_profile
      simp only [if_neg n4, hnone]

/-- The environment of the C5 witness: only the first demo account's
credentials are present. -/
def c5env : Env := fun k =>
  if k = "BINGX_1_API_KEY" || k = "BINGX_1_API_SECRET" then some "x" else none

/-- Witness for C5: of the two declared accounts of `demo_1_2` only
`bingx_1` resolves, and an undeclared profile name errors. -/
theorem c5_routing_profile_resolution_witness :
    (get_routing_profile c5env "demo_1_2").map (List.map AccountConfig.account_id)
      = .ok ["bingx_1"]
    ∧ (get_routing_profile c5env "unknown_profile").isOk = false := by
  constructor
  · obtain ⟨accs, h1, h2⟩ := (c5_routing_profile_resolution c5env "demo_1_2").1 (by decide)
    rw [h1]
    simp only [Except.map]
    rw [h2]
    decide
  · obtain ⟨msg, hm⟩ := (c5_routing_profile_resolution c5env "unknown_profile").2.2 (by decide)
    rw [hm]
    rfl

theorem compressBlock_length (hv block : List Nat) : (compressBlock hv block).length = 8 := rfl

theorem foldl_compressBlock_length (bs : List (List Nat)) (hv : List Nat)
    (h : hv.length = 8) : (bs.foldl compressBlock hv).length = 8 := by
  induction bs generalizing hv with
  | nil => simpa using h
  | cons b rest ih => exact ih _ (compressBlock_length _ _)

theorem sha256Words_length (ms : List Nat) : (sha256Words ms).length = 8 :=
  foldl_compressBlock_length _ _ rfl

theorem wordsToBytes_length (ws : List Nat) : (wordsToBytes ws).length = 4 * ws.length := by
  induction ws with
  | nil => rfl
  | cons w rest ih =>
      simp only [wordsToBytes, wordBytes, List.length_append, List.length_cons, ih]
      simp
      omega

theorem sha256_length (ms : List Nat) : (sha256 ms).length = 32 := by
  simp [sha256, wordsToBytes_length, sha256Words_length]

theorem hmacSha256_length (key msg : List Nat) : (hmacSha256 key msg).length = 32 := by
  simp [hmacSha256, sha256_length]

/-- A lowercase hex digit. -/
def isLowerHexDigit (c : Char) : Bool := hexAlphabet.contains c

theorem hexDigit_isLower (n : Nat) : isLowerHexDigit (hexDigit n) = true := by
  have h : n % 16 < 16 := Nat.mod_lt _ (by norm_num)
  unfold hexDigit isLowerHexDigit
  rw [List.getD_eq_getElem hexAlphabet _ (by simpa [hexAlphabet] using h)]
  exact List.elem_eq_true_of_mem (List.getElem_mem _)

theorem hexFold_length (bytes : List Nat) :
    (bytes.foldr (fun b acc => hexDigit (b / 16) :: hexDigit b :: acc) []).length
      = 2 * bytes.length := by
  induction bytes with
  | nil => rfl
  | cons b rest ih =>
      simp only [List.foldr, List.length_cons, ih]
      omega

theorem hexFold_all_lower (bytes : List Nat) :
    (bytes.foldr (fun b acc => hexDigit (b / 16) :: hexDigit b :: acc) []).all
      isLowerHexDigit = true := by
  induction bytes with
  | nil => rfl
  | cons b rest ih =>
      simp only [List.foldr, List.all_cons, ih, hexDigit_isLower]
      rfl

theorem hexDigest_length (bytes : List Nat) :
    (hexDigest bytes).length = 2 * bytes.length := by
  have : (hexDigest bytes).length =
      (bytes.foldr (fun b acc => hexDigit (b / 16) :: hexDigit b :: acc) []).length := rfl
  rw [this, hexFold_length]

theorem sortParams_sorted (params : List (String × String)) :
    List.Pairwise (fun a b : String × String => a.1 ≤ b.1) (sortParams params) := by
  have h := @List.sorted_mergeSort (String × String)
    (fun a b : String × String => decide (a.1 ≤ b.1))
    (fun a b c hab hbc => by
      simp only [decide_eq_true_eq] at *
      exact le_trans hab hbc)
    (fun a b => by
      simp only [Bool.or_eq_true, decide_eq_true_eq]
      exact le_total a.1 b.1)
    params
  exact h.imp (fun hab => by simpa using hab)

/-- C4: the signed query is the sorted, URL-encoded parameter string with
the hex HMAC-SHA256 signature appended as the final `signature`
parameter; the signature is 64 characters of lowercase hex; the
millisecond timestamp is added only when absent; the signing keys are in
lexicographic order; and with the timestamp present in the map the
result does not depend on the clock at all, so signing the same map
twice is byte-identical. -/
theorem c4_signed_query_properties (now : Nat) (params : List (String × String))
    (secret : String) :
    build_signed_query now params secret
      = query_of now params ++ "&signature=" ++ signature_of now params secret
    ∧ (signature_of now params secret).length = 64
    ∧ (signature_of now params secret).data.all isLowerHexDigit = true
    ∧ (params.any (fun kv => kv.1 = "timestamp") = true →
        withTimestamp now params = params)
    ∧ (params.any (fun kv => kv.1 = "timestamp") = false →
        withTimestamp now params = params ++ [("timestamp", toString now)])
    ∧ List.Pairwise (fun a b : String × String => a.1 ≤ b.1)
        (sortParams (withTimestamp now params))
    ∧ (params.any (fun kv => kv.1 = "timestamp") = true →
        ∀ n2, build_signed_query n2 params secret = build_signed_query now params secret) := by
  refine ⟨rfl, ?_, ?_, fun h => ?_, fun h => ?_, sortParams_sorted _, fun h n2 => ?_⟩
  · have : (signature_of now params secret).length
        = 2 * (hmacSha256 (strBytes secret) (strBytes (query_of now params))).length :=
      hexDigest_length _
    rw [this, hmacSha256_length]
  · exact hexFold_all_lower _
  · simp [withTimestamp, h]
  · simp [withTimestamp, h]
  · simp [build_signed_query, query_of, signature_of, withTimestamp, h]

/-- The parameter map of the C4 witness (the claim's example, values as
`urlencode` stringifies them). -/
def c4params : List (String × String) :=
  [("symbol", "BTC-USDT"), ("side", "BUY"), ("quantity", "0.001")]

/-- A parameter map that already carries a timestamp. -/
def c4paramsTs : List (String × String) :=
  [("timestamp", "5"), ("symbol", "BTC-USDT")]

/-- Witness for C4: the example signature is a 64-character string, a
present timestamp is kept as-is, and two signings of the
timestamp-carrying map with different clocks are byte-identical. -/
theorem c4_signed_query_properties_witness :
    (signature_of 1000 c4params "test_secret").length = 64
    ∧ withTimestamp 7 c4paramsTs = c4paramsTs
    ∧ build_signed_query 9 c4paramsTs "test_secret"
        = build_signed_query 7 c4paramsTs "test_secret" := by
  refine ⟨(c4_signed_query_properties 1000 c4params "test_secret").2.1, ?_, ?_⟩
  · exact (c4_signed_query_properties 7 c4paramsTs "test_secret").2.2.2.1 (by decide)
  · exact (c4_signed_query_properties 7 c4paramsTs "test_secret").2.2.2.2.2.2 (by decide) 9

end Tradebot
